import Mathlib

/-!
Shallow embedding of the generic matching engine of OpenGR
(`gr::MatchBase`, declared in src/src/gr/algorithms/matchBase.h).

The repository snapshot contains only the header: every method body lives in
matchBase.hpp, which is not part of the snapshot.  The bodies below are
therefore modelled from the specification, as the doc comment of each
definition records; the class constants and the `DummyTransformVisitor`
struct are taken directly from the header.  Scalars are rational numbers and
all metric comparisons are carried out on squared distances, which keeps the
whole development computable.
-/

namespace gr

/-- A position in 3-space with rational coordinates (`Point3D::VectorType`). -/
structure Vec3 where
  x : ℚ
  y : ℚ
  z : ℚ
deriving DecidableEq, Repr

/-- A point of a cloud (`gr::Point3D`): the engine claims only depend on the
position, so the optional normal and color attributes are omitted. -/
structure Point3D where
  pos : Vec3
deriving DecidableEq, Repr

/-- Squared Euclidean distance between two positions. -/
def distSq (a b : Vec3) : ℚ :=
  (a.x - b.x) * (a.x - b.x) + (a.y - b.y) * (a.y - b.y) + (a.z - b.z) * (a.z - b.z)

/-- Homogeneous 4x4 transformation matrix (`MatchBase::MatrixType`), with
one rational field per entry, row-major. -/
structure Mat4 where
  r00 : ℚ
  r01 : ℚ
  r02 : ℚ
  r03 : ℚ
  r10 : ℚ
  r11 : ℚ
  r12 : ℚ
  r13 : ℚ
  r20 : ℚ
  r21 : ℚ
  r22 : ℚ
  r23 : ℚ
  r30 : ℚ
  r31 : ℚ
  r32 : ℚ
  r33 : ℚ
deriving DecidableEq, Repr

/-- The identity transformation. -/
def Mat4.one : Mat4 := ⟨1,0,0,0, 0,1,0,0, 0,0,1,0, 0,0,0,1⟩

/-- Apply a homogeneous transform to a position (with homogeneous
coordinate 1, ignoring the projective row as the engine does for rigid
transforms). -/
def applyMat (m : Mat4) (v : Vec3) : Vec3 :=
  ⟨ m.r00 * v.x + m.r01 * v.y + m.r02 * v.z + m.r03
  , m.r10 * v.x + m.r11 * v.y + m.r12 * v.z + m.r13
  , m.r20 * v.x + m.r21 * v.y + m.r22 * v.z + m.r23 ⟩

/-- Apply a homogeneous transform to a whole point. -/
def applyMatP (m : Mat4) (p : Point3D) : Point3D := ⟨applyMat m p.pos⟩

/-- `MatchBase::kNumberOfDiameterTrials` (matchBase.h line 86). -/
def kNumberOfDiameterTrials : ℕ := 1000

/-- `MatchBase::kLargeNumber` (matchBase.h line 87). -/
def kLargeNumber : ℚ := 1000000000

/-- `MatchBase::distance_factor` (matchBase.h line 88). -/
def distance_factor : ℚ := 2

/-- Larger of two rationals, by an explicit comparison (kernel-reducible). -/
def qmax (a b : ℚ) : ℚ := if a ≤ b then b else a

/-- Smaller of two rationals, by an explicit comparison (kernel-reducible). -/
def qmin (a b : ℚ) : ℚ := if a ≤ b then a else b

/-- Modelled from the spec: the seeded random generator
(`std::mt19937 randomGenerator_`, matchBase.h line 179; the mt19937
algorithm is part of the C++ standard library, not of this repository).
The engine relies only on the generator being a deterministic stream derived
from the seed, so the state is a natural number advanced by a fixed step. -/
def rngStep (s : ℕ) : ℕ := s + 1

/-- Draw a value below `n` (for positive `n`) from the stream and advance the
generator state. -/
def rngBelow (n s : ℕ) : ℕ × ℕ := (s % n, rngStep s)

/-- Modelled from the spec: the recognized configuration surface (spec §6)
of the engine core; `delta_sq` is the squared absolute verification
tolerance and `terminate_threshold` the target LCP. -/
structure MatchOptions where
  number_of_trials : ℕ
  terminate_threshold : ℚ
  delta_sq : ℚ
  overlap_estimation : ℚ
  max_angle : ℚ
deriving DecidableEq, Repr

/-- Modelled from the spec: the numeric core of the closed-form
absolute-orientation (Horn) solution used by
`MatchBase::ComputeRigidTransformation` (spec §4.3; the body is in the
absent matchBase.hpp and the least-squares rotation is irrational in
general).  It is kept as a parameter: a total function from the
correspondence data to a success flag, the fitted transform and the RMS
residual. -/
structure RigidSolver where
  solve : List Vec3 → List Vec3 → Vec3 → Vec3 → ℚ → Bool → Bool × Mat4 × ℚ

/-- Modelled from the spec: the environment of one registration run.  `gen`
stands for the pure virtual `MatchBase::generateCongruents` (matchBase.h
line 285), a variant-specific external strategy producing candidate index
tuples into the sampled target set for a given base (spec §4.4). -/
structure MatchEnv where
  opts : MatchOptions
  solver : RigidSolver
  gen : List ℕ → List (List ℕ)

/-- Answer of the visitor progress hook: keep running or stop the loop. -/
inductive VisitorAction where
  | proceed : VisitorAction
  | stop : VisitorAction
deriving DecidableEq, Repr

/-- Modelled from the spec: the Visitor interface (spec §6): `onTrial`
receives the trial fraction, the best LCP so far and the current best
transform, and may request termination; `needsGlobalTransformation` asks for
incremental application of the transform to the live buffer. -/
structure VisitorT where
  onTrial : ℚ → ℚ → Mat4 → VisitorAction
  needsGlobalTransformation : Bool

/-- `gr::DummyTransformVisitor` (matchBase.h lines 64-68): the call operator
has an empty body — modelled as always answering `proceed` — and
`needsGlobalTransformation` is `constexpr` and returns `false`. -/
def DummyTransformVisitor : VisitorT :=
  { onTrial := fun _ _ _ => VisitorAction.proceed
  , needsGlobalTransformation := false }

/-- The error kinds that surface to the caller (spec §7): only a failed
run start is fatal. -/
inductive MatchError where
  | initializationFailure : MatchError
deriving DecidableEq, Repr

/-- The per-run mutable state of `MatchBase` (the fields of matchBase.h
lines 131-180 that the claims depend on).  Distances are stored squared:
`P_diameter_sq` models `P_diameter_` and `max_base_diameter_sq` models
`max_base_diameter_`.  `Q_buffer` models the caller's live Q buffer that the
`needsGlobalTransformation` hook writes to during the loop. -/
structure MatchState where
  sampled_P_3D_ : List Point3D
  sampled_Q_3D_ : List Point3D
  best_LCP_ : ℚ
  transform_ : Mat4
  current_trial_ : ℕ
  rng : ℕ
  P_diameter_sq : ℚ
  max_base_diameter_sq : ℚ
  Q_buffer : List Point3D
deriving DecidableEq

/-- Largest squared distance from `a` to a point of the list. -/
def farthestSq (pts : List Point3D) (a : Vec3) : ℚ :=
  pts.foldl (fun acc p => qmax acc (distSq a p.pos)) 0

/-- Modelled from the spec (§4.2): Monte-Carlo estimate of the squared
diameter of the sampled set — `kNumberOfDiameterTrials` rounds of picking a
random point and measuring the farthest sampled point from it (the body of
the estimation is in the absent matchBase.hpp). -/
def estimateDiameterSq (pts : List Point3D) : ℕ → ℕ → ℚ × ℕ
  | 0, s => (0, s)
  | n + 1, s =>
      let d := rngBelow pts.length s
      let cur := match pts.get? d.1 with
        | some p => farthestSq pts p.pos
        | none => 0
      let rest := estimateDiameterSq pts n d.2
      (qmax cur rest.1, rest.2)

/-- Modelled from the spec: `MatchBase::init` (declared at matchBase.h lines
274-277; body in the absent matchBase.hpp).  It samples both clouds, rejects
empty or under-sized samples at once with `initializationFailure` (spec §7)
before doing any other work, then estimates the squared diameter of P and
derives the maximum base diameter as
diameter x overlap x `distance_factor`, clamped to the set's extent
(spec §4.2, stated on squared values).  `best_LCP_` starts at 0 and the
transform starts at the caller's guess. -/
def init (env : MatchEnv) (sampler : List Point3D → List Point3D)
    (P Q : List Point3D) (guess : Mat4) (seed : ℕ) :
    Except MatchError MatchState :=
  let sp := sampler P
  let sq := sampler Q
  if sp.length < 3 ∨ sq.length < 3 then
    Except.error MatchError.initializationFailure
  else
    let est := estimateDiameterSq sp kNumberOfDiameterTrials seed
    let od := env.opts.overlap_estimation * distance_factor
    Except.ok
      { sampled_P_3D_ := sp
      , sampled_Q_3D_ := sq
      , best_LCP_ := 0
      , transform_ := guess
      , current_trial_ := 0
      , rng := est.2
      , P_diameter_sq := est.1
      , max_base_diameter_sq := qmin (est.1 * (od * od)) est.1
      , Q_buffer := Q }

/-- Modelled from the spec: `MatchBase::Verify` (declared at matchBase.h
line 240; body in the absent matchBase.hpp): the fraction of sampled target
points that the candidate transform brings within the tolerance of some
sampled reference point; the kd-tree nearest-neighbour query is modelled as
a scan of the sampled reference set, which has the same membership
semantics. -/
def Verify (delta_sq : ℚ) (sampled_P sampled_Q : List Point3D) (mat : Mat4) : ℚ :=
  ((sampled_Q.countP fun q =>
      sampled_P.any fun p => decide (distSq (applyMat mat q.pos) p.pos ≤ delta_sq)) : ℚ)
    / (sampled_Q.length : ℚ)

/-- True when the three positions are not collinear: the cross product of
the two edge vectors is nonzero.  Used by the base-selection heuristic
(spec §4.1, "mutually non-collinear"). -/
def nonCollinear (a b c : Vec3) : Bool :=
  let ux := b.x - a.x
  let uy := b.y - a.y
  let uz := b.z - a.z
  let vx := c.x - a.x
  let vy := c.y - a.y
  let vz := c.z - a.z
  !(decide (uy * vz - uz * vy = 0) && decide (uz * vx - ux * vz = 0)
      && decide (ux * vy - uy * vx = 0))

/-- Modelled from the spec (§4.1): acceptance test of one candidate
triangle — three pairwise distinct in-range indices into the sampled
reference set whose pairwise squared distances are bounded by the squared
maximum base diameter and whose vertices are not collinear. -/
def goodTriangle (st : MatchState) (i j k : ℕ) : Bool :=
  match st.sampled_P_3D_.get? i, st.sampled_P_3D_.get? j, st.sampled_P_3D_.get? k with
  | some a, some b, some c =>
      decide (i ≠ j) && decide (i ≠ k) && decide (j ≠ k)
        && decide (distSq a.pos b.pos ≤ st.max_base_diameter_sq)
        && decide (distSq a.pos c.pos ≤ st.max_base_diameter_sq)
        && decide (distSq b.pos c.pos ≤ st.max_base_diameter_sq)
        && nonCollinear a.pos b.pos c.pos
  | _, _, _ => false

/-- One selection attempt: draw three random indices into the sampled
reference set. -/
def drawTriple (n s : ℕ) : (ℕ × ℕ × ℕ) × ℕ :=
  let a := rngBelow n s
  let b := rngBelow n a.2
  let c := rngBelow n b.2
  ((a.1, b.1, c.1), c.2)

/-- Modelled from the spec (§4.1): the fuelled retry loop of
`SelectRandomTriangle`; it returns the accepted triple (if any), the
advanced generator state, and the number of attempts consumed. -/
def selectLoop (st : MatchState) : ℕ → ℕ → Option (ℕ × ℕ × ℕ) × ℕ × ℕ
  | 0, s => (none, s, 0)
  | fuel + 1, s =>
      let d := drawTriple st.sampled_P_3D_.length s
      if goodTriangle st d.1.1 d.1.2.1 d.1.2.2 then (some d.1, d.2, 1)
      else
        let r := selectLoop st fuel d.2
        (r.1, r.2.1, r.2.2 + 1)

/-- Modelled from the spec: `MatchBase::SelectRandomTriangle` (declared at
matchBase.h line 215; body in the absent matchBase.hpp): random triangle
selection capped at `kNumberOfDiameterTrials` attempts; a `none` result is
the `SelectionFailed` outcome (spec §4.1, §7). -/
def SelectRandomTriangle (st : MatchState) : Option (ℕ × ℕ × ℕ) × ℕ × ℕ :=
  selectLoop st kNumberOfDiameterTrials st.rng

/-- Centroid of a list of positions (spec §3, Centroids). -/
def centroid (l : List Vec3) : Vec3 :=
  let s := l.foldl (fun acc v => Vec3.mk (acc.x + v.x) (acc.y + v.y) (acc.z + v.z))
    (Vec3.mk 0 0 0)
  ⟨s.x / (l.length : ℚ), s.y / (l.length : ℚ), s.z / (l.length : ℚ)⟩

/-- Modelled from the spec: `MatchBase::ComputeRigidTransformation`
(declared at matchBase.h lines 227-234; body in the absent matchBase.hpp).
Per spec §4.3 the least-squares fit is computed over the first three of the
(up to four) correspondences only; the numeric Horn solution itself is the
`RigidSolver` parameter.  The result is always a triple of success flag,
transform and RMS residual: the routine is total and reports failure only
through the flag. -/
def ComputeRigidTransformation (solver : RigidSolver)
    (ref candidate : List Vec3) (centroid1 centroid2 : Vec3)
    (max_angle : ℚ) (computeScale : Bool) : Bool × Mat4 × ℚ :=
  solver.solve (ref.take 3) (candidate.take 3) centroid1 centroid2 max_angle computeScale

/-- Coordinates of a candidate index tuple in the sampled target set. -/
def candCoords (st : MatchState) (cand : List ℕ) : List Vec3 :=
  cand.filterMap fun i => (st.sampled_Q_3D_.get? i).map Point3D.pos

/-- Modelled from the spec: the per-candidate body of
`MatchBase::TryCongruentSet` (declared at matchBase.h line 262; body in the
absent matchBase.hpp): fit a rigid transform to the correspondence and, on a
successful fit, score it with `Verify`, keeping it only on strict
improvement of `best_LCP_` (spec §4.5: no override on ties). -/
def tryCandidate (env : MatchEnv) (baseCoords : List Vec3) (st : MatchState)
    (cand : List ℕ) : MatchState :=
  let cc := candCoords st cand
  let r := ComputeRigidTransformation env.solver baseCoords cc
    (centroid baseCoords) (centroid cc) env.opts.max_angle false
  if r.1 then
    let lcp := Verify env.opts.delta_sq st.sampled_P_3D_ st.sampled_Q_3D_ r.2.1
    if st.best_LCP_ < lcp then { st with best_LCP_ := lcp, transform_ := r.2.1 }
    else st
  else st

/-- Modelled from the spec: `MatchBase::TryCongruentSet` (declared at
matchBase.h line 262): examine every candidate of the congruent set in
order, retaining the best verified transform. -/
def TryCongruentSet (env : MatchEnv) (baseCoords : List Vec3)
    (congruent_set : List (List ℕ)) (st : MatchState) : MatchState :=
  congruent_set.foldl (tryCandidate env baseCoords) st

/-- Modelled from the spec: `MatchBase::TryOneBase` (declared at matchBase.h
line 256; body in the absent matchBase.hpp): select a base; when selection
fails the trial is abandoned with only the generator advanced; otherwise the
congruent set is generated and every candidate tried.  The trial counter is
advanced by the caller, so a failed selection still consumes budget. -/
def TryOneBase (env : MatchEnv) (st : MatchState) : MatchState :=
  match SelectRandomTriangle st with
  | (none, s', _) => { st with rng := s' }
  | (some t, s', _) =>
      let baseIdx := [t.1, t.2.1, t.2.2]
      let baseCoords := baseIdx.filterMap fun a => (st.sampled_P_3D_.get? a).map Point3D.pos
      TryCongruentSet env baseCoords (env.gen baseIdx) { st with rng := s' }

/-- Has the run reached a termination condition — target LCP achieved or
trial budget exhausted (spec §4.6)? -/
def terminated (env : MatchEnv) (st : MatchState) : Bool :=
  decide (env.opts.terminate_threshold ≤ st.best_LCP_)
    || decide (env.opts.number_of_trials ≤ st.current_trial_)

/-- Modelled from the spec: `MatchBase::Perform_N_steps` (declared at
matchBase.h lines 248-251; body in the absent matchBase.hpp): up to `n`
further trials; each iteration checks termination, runs one trial, counts it
against the budget, serves the `needsGlobalTransformation` hook on the live
buffer, and notifies the visitor, which may stop the loop (spec §4.6). -/
def Perform_N_steps (env : MatchEnv) (v : VisitorT) (Qorig : List Point3D) :
    ℕ → MatchState → MatchState
  | 0, st => st
  | n + 1, st =>
      if terminated env st then st
      else
        let st1 := TryOneBase env st
        let st2 := { st1 with current_trial_ := st1.current_trial_ + 1 }
        let st3 := if v.needsGlobalTransformation
          then { st2 with Q_buffer := Qorig.map (applyMatP st2.transform_) }
          else st2
        match v.onTrial ((st3.current_trial_ : ℚ) / (env.opts.number_of_trials : ℚ))
            st3.best_LCP_ st3.transform_ with
        | VisitorAction.stop => st3
        | VisitorAction.proceed => Perform_N_steps env v Qorig n st3

/-- The trial loop with all visitor hooks removed: reference loop used to
state that the default visitor is a strict no-op. -/
def Perform_N_steps_plain (env : MatchEnv) : ℕ → MatchState → MatchState
  | 0, st => st
  | n + 1, st =>
      if terminated env st then st
      else
        let st1 := TryOneBase env st
        Perform_N_steps_plain env n { st1 with current_trial_ := st1.current_trial_ + 1 }

/-- The caller-visible buffers of `ComputeTransformation` (matchBase.h lines
121-127): the reference set P is passed by const reference, the target set Q
by pointer and updated in place, and the transformation is in-out with the
initial value taken as a guess. -/
structure World where
  P : List Point3D
  Q : List Point3D
  transformation : Mat4
deriving DecidableEq

/-- Modelled from the spec: `MatchBase::ComputeTransformation` (declared at
matchBase.h lines 121-127; body in the absent matchBase.hpp).  Sets up the
run state (failing at once on empty or under-sized samples), runs the trial
loop, and finalizes by applying the best transform to a copy of the
original, unsampled Q, returning the achieved LCP together with the updated
caller buffers (spec §4.6). -/
def ComputeTransformation (env : MatchEnv)
    (sampler : List Point3D → List Point3D) (v : VisitorT)
    (w : World) (seed : ℕ) : Except MatchError (ℚ × World) :=
  match init env sampler w.P w.Q w.transformation seed with
  | Except.error e => Except.error e
  | Except.ok st0 =>
      let stF := Perform_N_steps env v w.Q env.opts.number_of_trials st0
      Except.ok (stF.best_LCP_,
        { P := w.P
        , Q := w.Q.map (applyMatP stF.transform_)
        , transformation := stF.transform_ })


/-! ### Concrete instances used to exercise the engine -/

/-- A sample point. -/
def pA : Point3D := ⟨⟨1, 0, 0⟩⟩

/-- A sample point. -/
def pB : Point3D := ⟨⟨0, 1, 0⟩⟩

/-- A sample point. -/
def pC : Point3D := ⟨⟨0, 0, 1⟩⟩

/-- The origin as a sample point. -/
def pZ : Point3D := ⟨⟨0, 0, 0⟩⟩

/-- A well-spread three-point cloud (pairwise squared distance 2). -/
def cloudW : List Point3D := [pA, pB, pC]

/-- A fully degenerate cloud: three copies of the origin. -/
def cloudZ : List Point3D := [pZ, pZ, pZ]

/-- The identity sampler (a legal sampler: it returns the set itself). -/
def samplerW : List Point3D → List Point3D := fun l => l

/-- A sampler whose output is always under-sized: it keeps two points. -/
def samplerShort : List Point3D → List Point3D := fun l => l.take 2

/-- A rigid solver that always reports failure. -/
def solverNone : RigidSolver := ⟨fun _ _ _ _ _ _ => (false, Mat4.one, 0)⟩

/-- Options asking for no trial at all. -/
def optsW : MatchOptions := ⟨0, 1, 1, 1/2, 1⟩

/-- Options asking for exactly one trial. -/
def optsB : MatchOptions := ⟨1, 1, 1, 1/2, 1⟩

/-- Run environment with the no-trial options. -/
def envW : MatchEnv := ⟨optsW, solverNone, fun _ => []⟩

/-- Run environment with the one-trial options. -/
def envB : MatchEnv := ⟨optsB, solverNone, fun _ => []⟩

/-- Caller buffers for a healthy run. -/
def wW : World := ⟨cloudW, cloudW, Mat4.one⟩

/-- Caller buffers with an empty reference set. -/
def wE : World := ⟨[], cloudW, Mat4.one⟩

/-- The state produced by a successful run start on `cloudW` with seed 0. -/
def stW0 : MatchState := ⟨cloudW, cloudW, 0, Mat4.one, 0, 1000, 2, 2, cloudW⟩

/-- The caller buffers returned by the no-trial run on `wW`. -/
def wRes : World := ⟨cloudW, cloudW.map (applyMatP Mat4.one), Mat4.one⟩

/-- A run state over the degenerate cloud (every triangle is rejected). -/
def stB : MatchState := ⟨cloudZ, cloudZ, 0, Mat4.one, 0, 0, 0, 0, cloudZ⟩

/-- A run state over the well-spread cloud (the first triangle is accepted). -/
def stG : MatchState := ⟨cloudW, cloudW, 0, Mat4.one, 0, 0, 2, 2, cloudW⟩

/-- A fourth sample position. -/
def vD : Vec3 := ⟨1, 1, 1⟩

/-- A fifth sample position. -/
def vE : Vec3 := ⟨2, 2, 2⟩


/-! ### General lemmas about the run components -/

/-- The diameter estimation advances the generator once per round. -/
theorem estimateDiameterSq_snd (pts : List Point3D) :
    ∀ n s, (estimateDiameterSq pts n s).2 = s + n := by
  intro n
  induction n with
  | zero => intro s; simp [estimateDiameterSq]
  | succ k ih =>
      intro s
      simp only [estimateDiameterSq, rngBelow, rngStep]
      rw [ih]
      omega

/-- The selection loop never consumes more attempts than its fuel. -/
theorem selectLoop_attempts_le (st : MatchState) :
    ∀ fuel s, (selectLoop st fuel s).2.2 ≤ fuel := by
  intro fuel
  induction fuel with
  | zero => intro s; simp [selectLoop]
  | succ k ih =>
      intro s
      simp only [selectLoop]
      split
      · simp
      · simpa using Nat.succ_le_succ (ih _)

/-- When no triangle is acceptable, the selection loop fails, advances the
generator three times per attempt, and uses all its fuel. -/
theorem selectLoop_none_of_bad (st : MatchState)
    (hbad : ∀ i j k, goodTriangle st i j k = false) :
    ∀ fuel s, selectLoop st fuel s = (none, s + 3 * fuel, fuel) := by
  intro fuel
  induction fuel with
  | zero => intro s; simp [selectLoop]
  | succ k ih =>
      intro s
      simp only [selectLoop, hbad, if_false]
      rw [ih]
      simp only [drawTriple, rngBelow, rngStep]
      refine Prod.ext rfl (Prod.ext ?_ rfl)
      simp
      omega

/-- A successful selection returns a triangle accepted by the heuristic. -/
theorem selectLoop_some_good (st : MatchState) :
    ∀ fuel s i j k s' a,
      selectLoop st fuel s = (some (i, j, k), s', a) → goodTriangle st i j k = true := by
  intro fuel
  induction fuel with
  | zero => intro s i j k s' a h; simp [selectLoop] at h
  | succ m ih =>
      intro s i j k s' a h
      simp only [selectLoop] at h
      split at h
      · simp only [Prod.mk.injEq, Option.some.injEq] at h
        obtain ⟨h1, -, -⟩ := h
        rename_i hgood
        rw [h1] at hgood
        exact hgood
      · simp only [Prod.mk.injEq] at h
        obtain ⟨h1, -, -⟩ := h
        exact ih _ i j k _ _ (by rw [← h1])


/-- An accepted triangle provides in-range points whose pairwise squared
distances are bounded by the maximum base diameter. -/
theorem goodTriangle_bounds (st : MatchState) (i j k : ℕ)
    (h : goodTriangle st i j k = true) :
    ∃ pa pb pc, st.sampled_P_3D_.get? i = some pa ∧
      st.sampled_P_3D_.get? j = some pb ∧ st.sampled_P_3D_.get? k = some pc ∧
      distSq pa.pos pb.pos ≤ st.max_base_diameter_sq ∧
      distSq pa.pos pc.pos ≤ st.max_base_diameter_sq ∧
      distSq pb.pos pc.pos ≤ st.max_base_diameter_sq := by
  unfold goodTriangle at h
  cases hga : st.sampled_P_3D_.get? i with
  | none => rw [hga] at h; simp at h
  | some pa =>
      cases hgb : st.sampled_P_3D_.get? j with
      | none => rw [hga, hgb] at h; simp at h
      | some pb =>
          cases hgc : st.sampled_P_3D_.get? k with
          | none => rw [hga, hgb, hgc] at h; simp at h
          | some pc =>
              rw [hga, hgb, hgc] at h
              simp only [Bool.and_eq_true, decide_eq_true_eq] at h
              obtain ⟨⟨⟨⟨⟨⟨-, -⟩, -⟩, h4⟩, h5⟩, h6⟩, -⟩ := h
              exact ⟨pa, pb, pc, rfl, rfl, rfl, h4, h5, h6⟩

/-- The LCP score is never negative. -/
theorem Verify_nonneg (d : ℚ) (P Q : List Point3D) (m : Mat4) :
    0 ≤ Verify d P Q m := by
  unfold Verify
  exact div_nonneg (Nat.cast_nonneg _) (Nat.cast_nonneg _)

/-- The LCP score never exceeds one. -/
theorem Verify_le_one (d : ℚ) (P Q : List Point3D) (m : Mat4) :
    Verify d P Q m ≤ 1 := by
  unfold Verify
  apply div_le_one_of_le₀
  · exact_mod_cast List.countP_le_length _
  · exact Nat.cast_nonneg _

/-- One candidate examination never decreases the best LCP. -/
theorem tryCandidate_best_le (env : MatchEnv) (b : List Vec3) (st : MatchState)
    (cand : List ℕ) : st.best_LCP_ ≤ (tryCandidate env b st cand).best_LCP_ := by
  unfold tryCandidate
  dsimp only
  split
  · split
    · rename_i hlt
      exact le_of_lt hlt
    · exact le_refl _
  · exact le_refl _

/-- One candidate examination keeps the best LCP at most one. -/
theorem tryCandidate_best_le_one (env : MatchEnv) (b : List Vec3) (st : MatchState)
    (cand : List ℕ) (h : st.best_LCP_ ≤ 1) :
    (tryCandidate env b st cand).best_LCP_ ≤ 1 := by
  unfold tryCandidate
  dsimp only
  split
  · split
    · exact Verify_le_one _ _ _ _
    · exact h
  · exact h

/-- One candidate examination leaves every field except the retained best
LCP and transform unchanged. -/
theorem tryCandidate_frame (env : MatchEnv) (b : List Vec3) (st : MatchState)
    (cand : List ℕ) :
    (tryCandidate env b st cand).sampled_P_3D_ = st.sampled_P_3D_ ∧
    (tryCandidate env b st cand).sampled_Q_3D_ = st.sampled_Q_3D_ ∧
    (tryCandidate env b st cand).current_trial_ = st.current_trial_ ∧
    (tryCandidate env b st cand).rng = st.rng ∧
    (tryCandidate env b st cand).Q_buffer = st.Q_buffer := by
  unfold tryCandidate
  dsimp only
  split
  · split
    · exact ⟨rfl, rfl, rfl, rfl, rfl⟩
    · exact ⟨rfl, rfl, rfl, rfl, rfl⟩
  · exact ⟨rfl, rfl, rfl, rfl, rfl⟩

/-- Scanning a congruent set never decreases the best LCP. -/
theorem TryCongruentSet_best_le (env : MatchEnv) (b : List Vec3) :
    ∀ (cs : List (List ℕ)) (st : MatchState),
      st.best_LCP_ ≤ (TryCongruentSet env b cs st).best_LCP_ := by
  intro cs
  induction cs with
  | nil => intro st; simp [TryCongruentSet]
  | cons c cs ih =>
      intro st
      have h1 := tryCandidate_best_le env b st c
      have h2 := ih (tryCandidate env b st c)
      calc st.best_LCP_ ≤ (tryCandidate env b st c).best_LCP_ := h1
        _ ≤ _ := h2

/-- Scanning a congruent set keeps the best LCP at most one. -/
theorem TryCongruentSet_best_le_one (env : MatchEnv) (b : List Vec3) :
    ∀ (cs : List (List ℕ)) (st : MatchState), st.best_LCP_ ≤ 1 →
      (TryCongruentSet env b cs st).best_LCP_ ≤ 1 := by
  intro cs
  induction cs with
  | nil => intro st h; simpa [TryCongruentSet] using h
  | cons c cs ih =>
      intro st h
      exact ih _ (tryCandidate_best_le_one env b st c h)

/-- Scanning a congruent set touches only the best LCP and transform. -/
theorem TryCongruentSet_frame (env : MatchEnv) (b : List Vec3) :
    ∀ (cs : List (List ℕ)) (st : MatchState),
      (TryCongruentSet env b cs st).sampled_P_3D_ = st.sampled_P_3D_ ∧
      (TryCongruentSet env b cs st).sampled_Q_3D_ = st.sampled_Q_3D_ ∧
      (TryCongruentSet env b cs st).current_trial_ = st.current_trial_ ∧
      (TryCongruentSet env b cs st).rng = st.rng ∧
      (TryCongruentSet env b cs st).Q_buffer = st.Q_buffer := by
  intro cs
  induction cs with
  | nil => intro st; simp [TryCongruentSet]
  | cons c cs ih =>
      intro st
      have h1 := tryCandidate_frame env b st c
      have h2 := ih (tryCandidate env b st c)
      simp only [TryCongruentSet, List.foldl_cons] at h2 ⊢
      exact ⟨h2.1.trans h1.1, (h2.2.1).trans h1.2.1, (h2.2.2.1).trans h1.2.2.1,
        (h2.2.2.2.1).trans h1.2.2.2.1, (h2.2.2.2.2).trans h1.2.2.2.2⟩


/-- A trial never decreases the best LCP. -/
theorem TryOneBase_best_le (env : MatchEnv) (st : MatchState) :
    st.best_LCP_ ≤ (TryOneBase env st).best_LCP_ := by
  unfold TryOneBase
  rcases h : SelectRandomTriangle st with ⟨o, s', a⟩
  cases o with
  | none => exact le_refl _
  | some t => exact TryCongruentSet_best_le env _ _ _

/-- A trial keeps the best LCP at most one. -/
theorem TryOneBase_best_le_one (env : MatchEnv) (st : MatchState)
    (h : st.best_LCP_ ≤ 1) : (TryOneBase env st).best_LCP_ ≤ 1 := by
  unfold TryOneBase
  rcases hs : SelectRandomTriangle st with ⟨o, s', a⟩
  cases o with
  | none => exact h
  | some t => exact TryCongruentSet_best_le_one env _ _ _ h

/-- A trial never touches the sampled clouds, the trial counter or the
caller's live buffer. -/
theorem TryOneBase_frame (env : MatchEnv) (st : MatchState) :
    (TryOneBase env st).sampled_P_3D_ = st.sampled_P_3D_ ∧
    (TryOneBase env st).sampled_Q_3D_ = st.sampled_Q_3D_ ∧
    (TryOneBase env st).current_trial_ = st.current_trial_ ∧
    (TryOneBase env st).Q_buffer = st.Q_buffer := by
  unfold TryOneBase
  rcases hs : SelectRandomTriangle st with ⟨o, s', a⟩
  cases o with
  | none => exact ⟨rfl, rfl, rfl, rfl⟩
  | some t =>
      have hf := TryCongruentSet_frame env
        ([t.1, t.2.1, t.2.2].filterMap fun a => (st.sampled_P_3D_.get? a).map Point3D.pos)
        (env.gen [t.1, t.2.1, t.2.2]) { st with rng := s' }
      exact ⟨hf.1, hf.2.1, hf.2.2.1, hf.2.2.2.2⟩

/-- The full trial loop never decreases the best LCP. -/
theorem Perform_N_steps_best_le (env : MatchEnv) (v : VisitorT) (Q : List Point3D) :
    ∀ (n : ℕ) (st : MatchState),
      st.best_LCP_ ≤ (Perform_N_steps env v Q n st).best_LCP_ := by
  intro n
  induction n with
  | zero => intro st; exact le_refl _
  | succ k ih =>
      intro st
      simp only [Perform_N_steps]
      split
      · exact le_refl _
      · have h1 := TryOneBase_best_le env st
        cases hne : v.needsGlobalTransformation <;>
          cases hv : v.onTrial (((TryOneBase env st).current_trial_ + 1 : ℕ) /
              (env.opts.number_of_trials : ℚ)) (TryOneBase env st).best_LCP_
              (TryOneBase env st).transform_ <;>
          simp only [hne, hv, Bool.false_eq_true, if_false, if_true] <;>
          first
            | exact h1
            | exact le_trans h1 (ih _)


/-- The full trial loop keeps the best LCP at most one. -/
theorem Perform_N_steps_best_le_one (env : MatchEnv) (v : VisitorT) (Q : List Point3D) :
    ∀ (n : ℕ) (st : MatchState), st.best_LCP_ ≤ 1 →
      (Perform_N_steps env v Q n st).best_LCP_ ≤ 1 := by
  intro n
  induction n with
  | zero => intro st h; exact h
  | succ k ih =>
      intro st h
      simp only [Perform_N_steps]
      split
      · exact h
      · have h1 := TryOneBase_best_le_one env st h
        cases hne : v.needsGlobalTransformation <;>
          cases hv : v.onTrial (((TryOneBase env st).current_trial_ + 1 : ℕ) /
              (env.opts.number_of_trials : ℚ)) (TryOneBase env st).best_LCP_
              (TryOneBase env st).transform_ <;>
          simp only [hne, hv, Bool.false_eq_true, if_false, if_true] <;>
          first
            | exact h1
            | exact ih _ h1

/-- The visitor-free loop leaves the caller's live buffer alone. -/
theorem Perform_N_steps_plain_Q_buffer (env : MatchEnv) :
    ∀ (n : ℕ) (st : MatchState),
      (Perform_N_steps_plain env n st).Q_buffer = st.Q_buffer := by
  intro n
  induction n with
  | zero => intro st; rfl
  | succ k ih =>
      intro st
      simp only [Perform_N_steps_plain]
      split
      · rfl
      · rw [ih]
        exact (TryOneBase_frame env st).2.2.2

/-- With the default visitor the trial loop behaves exactly like the
visitor-free loop. -/
theorem Perform_N_steps_dummy_eq_plain (env : MatchEnv) (Q : List Point3D) :
    ∀ (n : ℕ) (st : MatchState),
      Perform_N_steps env DummyTransformVisitor Q n st = Perform_N_steps_plain env n st := by
  intro n
  induction n with
  | zero => intro st; rfl
  | succ k ih =>
      intro st
      simp only [Perform_N_steps, Perform_N_steps_plain, DummyTransformVisitor]
      split
      · rfl
      · exact ih _


set_option maxRecDepth 4000 in
/-- Fields of a successfully built run state. -/
theorem init_ok_fields (env : MatchEnv) (sampler : List Point3D → List Point3D)
    (P Q : List Point3D) (g : Mat4) (seed : ℕ) (st : MatchState)
    (h : init env sampler P Q g seed = Except.ok st) :
    st.best_LCP_ = 0 ∧ st.current_trial_ = 0 ∧ st.transform_ = g ∧
    st.Q_buffer = Q ∧
    st.max_base_diameter_sq =
      qmin (st.P_diameter_sq *
          ((env.opts.overlap_estimation * distance_factor) *
            (env.opts.overlap_estimation * distance_factor)))
        st.P_diameter_sq := by
  simp only [init] at h
  split at h
  · exact absurd h (by simp)
  · simp only [Except.ok.injEq] at h
    subst h
    refine ⟨?_, ?_, ?_, ?_, ?_⟩
    · rfl
    · rfl
    · rfl
    · rfl
    · dsimp only

/-- A failed selection leaves everything but the generator untouched. -/
theorem TryOneBase_sel_none (env : MatchEnv) (st : MatchState) (s' a : ℕ)
    (h : SelectRandomTriangle st = (none, s', a)) :
    TryOneBase env st = { st with rng := s' } := by
  unfold TryOneBase
  rw [h]

/-! ### Evaluation facts about the concrete instances -/

/-- Looking up any index below three in the sample cloud, then taking the
farthest squared distance, always yields 2. -/
theorem cur_cloudW (m : ℕ) (hm : m < 3) :
    (match cloudW.get? m with
      | some p => farthestSq cloudW p.pos
      | none => 0) = 2 := by
  have hA : farthestSq cloudW pA.pos = 2 := by
    simp only [farthestSq, cloudW, List.foldl_cons, List.foldl_nil]
    norm_num [qmax, distSq, pA, pB, pC]
  have hB : farthestSq cloudW pB.pos = 2 := by
    simp only [farthestSq, cloudW, List.foldl_cons, List.foldl_nil]
    norm_num [qmax, distSq, pA, pB, pC]
  have hC : farthestSq cloudW pC.pos = 2 := by
    simp only [farthestSq, cloudW, List.foldl_cons, List.foldl_nil]
    norm_num [qmax, distSq, pA, pB, pC]
  interval_cases m
  · rw [show cloudW.get? 0 = some pA from rfl]
    exact hA
  · rw [show cloudW.get? 1 = some pB from rfl]
    exact hB
  · rw [show cloudW.get? 2 = some pC from rfl]
    exact hC

/-- Every estimation round on the sample cloud reports 2. -/
theorem est1_cloudW : ∀ (n s : ℕ), (estimateDiameterSq cloudW (n + 1) s).1 = 2 := by
  intro n
  induction n with
  | zero =>
      intro s
      rw [estimateDiameterSq.eq_2, estimateDiameterSq.eq_1]
      have := cur_cloudW ((rngBelow cloudW.length s).1)
        (by simp [rngBelow, cloudW]; omega)
      rw [this]
      norm_num [qmax]
  | succ k ih =>
      intro s
      rw [estimateDiameterSq.eq_2]
      have := cur_cloudW ((rngBelow cloudW.length s).1)
        (by simp [rngBelow, cloudW]; omega)
      rw [this, ih]
      norm_num [qmax]

/-- The full diameter estimation on the sample cloud with seed 0. -/
theorem estW : estimateDiameterSq cloudW 1000 0 = (2, 1000) := by
  have h1 : (estimateDiameterSq cloudW 1000 0).1 = 2 := est1_cloudW 999 0
  have h2 := estimateDiameterSq_snd cloudW 1000 0
  simp only [Nat.zero_add] at h2
  exact Prod.ext h1 h2


/-- The run start on the sample buffers succeeds and yields `stW0`. -/
theorem initW_eq : init envW samplerW wW.P wW.Q wW.transformation 0 = Except.ok stW0 := by
  have hest : estimateDiameterSq (samplerW wW.P) kNumberOfDiameterTrials 0 = (2, 1000) := estW
  have hc : ¬((samplerW wW.P).length < 3 ∨ (samplerW wW.Q).length < 3) := by
    norm_num [samplerW, wW, cloudW]
  simp only [init]
  rw [if_neg hc, hest]
  norm_num [stW0, envW, optsW, samplerW, wW, cloudW, qmin, distance_factor]

/-- The no-trial run on the sample buffers returns LCP 0 and buffers `wRes`. -/
theorem ctW_eq : ComputeTransformation envW samplerW DummyTransformVisitor wW 0 =
    Except.ok (0, wRes) := by
  unfold ComputeTransformation
  rw [initW_eq]
  rfl

/-- On the degenerate cloud every triangle is rejected. -/
theorem goodTriangle_stB (i j k : ℕ) : goodTriangle stB i j k = false := by
  unfold goodTriangle
  cases hga : stB.sampled_P_3D_.get? i with
  | none => rfl
  | some a =>
      cases hgb : stB.sampled_P_3D_.get? j with
      | none => rfl
      | some b =>
          cases hgc : stB.sampled_P_3D_.get? k with
          | none => rfl
          | some c =>
              have ha : a ∈ cloudZ := List.get?_mem hga
              have hb : b ∈ cloudZ := List.get?_mem hgb
              have hc : c ∈ cloudZ := List.get?_mem hgc
              simp only [cloudZ, List.mem_cons, List.not_mem_nil, or_false] at ha hb hc
              rcases ha with rfl | rfl | rfl <;> rcases hb with rfl | rfl | rfl <;>
                rcases hc with rfl | rfl | rfl <;>
                simp [nonCollinear, pZ]

/-- Selection on the degenerate cloud fails after exactly the capped number
of attempts. -/
theorem selB : SelectRandomTriangle stB = (none, 3000, 1000) := by
  have h := selectLoop_none_of_bad stB goodTriangle_stB 1000 0
  show selectLoop stB 1000 0 = (none, 3000, 1000)
  rw [h]

/-- The one-trial run over `stB` has not terminated yet. -/
theorem terminatedB : terminated envB stB = false := by
  norm_num [terminated, envB, optsB, stB]

/-- On the well-spread cloud the triangle (0, 1, 2) is accepted. -/
theorem goodTriangle_stG : goodTriangle stG 0 1 2 = true := by
  unfold goodTriangle
  rw [show stG.sampled_P_3D_.get? 0 = some pA from rfl,
    show stG.sampled_P_3D_.get? 1 = some pB from rfl,
    show stG.sampled_P_3D_.get? 2 = some pC from rfl]
  simp only [Bool.and_eq_true, decide_eq_true_eq]
  refine ⟨⟨⟨⟨⟨⟨?_, ?_⟩, ?_⟩, ?_⟩, ?_⟩, ?_⟩, ?_⟩ <;>
    norm_num [distSq, pA, pB, pC, stG, nonCollinear]

/-- Selection on the well-spread cloud succeeds on the first attempt. -/
theorem selG : SelectRandomTriangle stG = (some (0, 1, 2), 3, 1) := by
  have h : selectLoop stG (999 + 1) 0 = (some (0, 1, 2), 3, 1) := by
    rw [selectLoop.eq_2]
    simp only [drawTriple, rngBelow, rngStep,
      show stG.sampled_P_3D_.length = 3 from rfl]
    norm_num [goodTriangle_stG]
  show selectLoop stG 1000 0 = (some (0, 1, 2), 3, 1)
  exact h


/-! ### The claims -/

/-- C1: for every valid input pair, `ComputeTransformation` returns the
achieved LCP of the run together with the caller's buffers in which Q has
been replaced by the original Q transformed by the returned (best-found)
transformation, which is the best transform of the trial loop. -/
theorem ComputeTransformation_finalize :
    ∀ (env : MatchEnv) (sampler : List Point3D → List Point3D) (v : VisitorT)
      (w : World) (seed : ℕ) (lcp : ℚ) (w' : World),
      ComputeTransformation env sampler v w seed = Except.ok (lcp, w') →
      w'.Q = w.Q.map (applyMatP w'.transformation) ∧
      ∃ st0, init env sampler w.P w.Q w.transformation seed = Except.ok st0 ∧
        lcp = (Perform_N_steps env v w.Q env.opts.number_of_trials st0).best_LCP_ ∧
        w'.transformation =
          (Perform_N_steps env v w.Q env.opts.number_of_trials st0).transform_ := by
  intro env sampler v w seed lcp w' h
  unfold ComputeTransformation at h
  cases hinit : init env sampler w.P w.Q w.transformation seed with
  | error e => rw [hinit] at h; exact absurd h (by simp)
  | ok st0 =>
      rw [hinit] at h
      simp only [Except.ok.injEq, Prod.mk.injEq] at h
      obtain ⟨h1, h2⟩ := h
      subst h2
      exact ⟨rfl, st0, rfl, h1.symm, rfl⟩

/-- C1 witness: the conclusion at the concrete no-trial run. -/
theorem ComputeTransformation_finalize_witness :
    wRes.Q = wW.Q.map (applyMatP wRes.transformation) ∧
    ∃ st0, init envW samplerW wW.P wW.Q wW.transformation 0 = Except.ok st0 ∧
      (0 : ℚ) =
        (Perform_N_steps envW DummyTransformVisitor wW.Q envW.opts.number_of_trials
          st0).best_LCP_ ∧
      wRes.transformation =
        (Perform_N_steps envW DummyTransformVisitor wW.Q envW.opts.number_of_trials
          st0).transform_ :=
  ComputeTransformation_finalize envW samplerW DummyTransformVisitor wW 0 0 wRes ctW_eq

/-- C2: within a run, `best_LCP_` is monotonically non-decreasing across
candidate scans, trials and the whole loop. -/
theorem best_LCP_monotone :
    (∀ (env : MatchEnv) (b : List Vec3) (cs : List (List ℕ)) (st : MatchState),
      st.best_LCP_ ≤ (TryCongruentSet env b cs st).best_LCP_) ∧
    (∀ (env : MatchEnv) (st : MatchState),
      st.best_LCP_ ≤ (TryOneBase env st).best_LCP_) ∧
    (∀ (env : MatchEnv) (v : VisitorT) (Q : List Point3D) (n : ℕ) (st : MatchState),
      st.best_LCP_ ≤ (Perform_N_steps env v Q n st).best_LCP_) :=
  ⟨fun env b cs st => TryCongruentSet_best_le env b cs st,
   fun env st => TryOneBase_best_le env st,
   fun env v Q n st => Perform_N_steps_best_le env v Q n st⟩

/-- C3: every `Verify` score, and every LCP returned by
`ComputeTransformation`, lies in the closed interval [0, 1]. -/
theorem LCP_in_unit_interval :
    (∀ (d : ℚ) (P Q : List Point3D) (m : Mat4),
        0 ≤ Verify d P Q m ∧ Verify d P Q m ≤ 1) ∧
    (∀ (env : MatchEnv) (sampler : List Point3D → List Point3D) (v : VisitorT)
        (w : World) (seed : ℕ) (lcp : ℚ) (w' : World),
        ComputeTransformation env sampler v w seed = Except.ok (lcp, w') →
        0 ≤ lcp ∧ lcp ≤ 1) := by
  constructor
  · intro d P Q m
    exact ⟨Verify_nonneg d P Q m, Verify_le_one d P Q m⟩
  · intro env sampler v w seed lcp w' h
    unfold ComputeTransformation at h
    cases hinit : init env sampler w.P w.Q w.transformation seed with
    | error e => rw [hinit] at h; exact absurd h (by simp)
    | ok st0 =>
        rw [hinit] at h
        simp only [Except.ok.injEq, Prod.mk.injEq] at h
        obtain ⟨h1, -⟩ := h
        have h0 :=
          (init_ok_fields env sampler w.P w.Q w.transformation seed st0 hinit).1
        rw [← h1]
        constructor
        · calc (0 : ℚ) = st0.best_LCP_ := h0.symm
            _ ≤ _ := Perform_N_steps_best_le env v w.Q env.opts.number_of_trials st0
        · exact Perform_N_steps_best_le_one env v w.Q env.opts.number_of_trials st0
            (by rw [h0]; norm_num)

/-- C3 witness: the bounds at a concrete score and a concrete run. -/
theorem LCP_in_unit_interval_witness :
    (0 ≤ Verify 1 cloudW cloudW Mat4.one ∧ Verify 1 cloudW cloudW Mat4.one ≤ 1) ∧
    (0 ≤ (0 : ℚ) ∧ (0 : ℚ) ≤ 1) :=
  ⟨LCP_in_unit_interval.1 1 cloudW cloudW Mat4.one,
   LCP_in_unit_interval.2 envW samplerW DummyTransformVisitor wW 0 0 wRes ctW_eq⟩

/-- C4: the engine is deterministic — two sequential runs on the same
buffers with the same seed return identical results. -/
theorem ComputeTransformation_deterministic :
    ∀ (env : MatchEnv) (sampler : List Point3D → List Point3D) (v : VisitorT)
      (w : World) (seed1 seed2 : ℕ), seed1 = seed2 →
      ComputeTransformation env sampler v w seed1 =
        ComputeTransformation env sampler v w seed2 := by
  intro env sampler v w seed1 seed2 h
  rw [h]

/-- C4 witness: the conclusion at a concrete seed. -/
theorem ComputeTransformation_deterministic_witness :
    ComputeTransformation envW samplerW DummyTransformVisitor wW 7 =
      ComputeTransformation envW samplerW DummyTransformVisitor wW 7 :=
  ComputeTransformation_deterministic envW samplerW DummyTransformVisitor wW 7 7 rfl


/-- C5: base selection is capped at `kNumberOfDiameterTrials` attempts; on
failure only the current trial is abandoned (only the generator state
changes), and the loop continues with the next trial, the failed trial
still counting against the budget. -/
theorem SelectRandomTriangle_cap_and_trial_local :
    (∀ st : MatchState, (SelectRandomTriangle st).2.2 ≤ kNumberOfDiameterTrials) ∧
    (∀ (env : MatchEnv) (st : MatchState) (s' a : ℕ),
        SelectRandomTriangle st = (none, s', a) →
        TryOneBase env st = { st with rng := s' }) ∧
    (∀ (env : MatchEnv) (v : VisitorT) (Q : List Point3D) (n : ℕ) (st : MatchState)
        (s' a : ℕ),
        terminated env st = false →
        SelectRandomTriangle st = (none, s', a) →
        v.onTrial (((st.current_trial_ : ℚ) + 1) / (env.opts.number_of_trials : ℚ))
            st.best_LCP_ st.transform_ = VisitorAction.proceed →
        ∃ st3, Perform_N_steps env v Q (n + 1) st = Perform_N_steps env v Q n st3 ∧
          st3.current_trial_ = st.current_trial_ + 1 ∧
          st3.best_LCP_ = st.best_LCP_ ∧ st3.transform_ = st.transform_) := by
  refine ⟨?_, ?_, ?_⟩
  · intro st
    exact selectLoop_attempts_le st kNumberOfDiameterTrials st.rng
  · intro env st s' a h
    exact TryOneBase_sel_none env st s' a h
  · intro env v Q n st s' a hterm hsel hv
    have hT := TryOneBase_sel_none env st s' a hsel
    cases hng : v.needsGlobalTransformation
    · refine ⟨{ st with rng := s', current_trial_ := st.current_trial_ + 1 },
        ?_, rfl, rfl, rfl⟩
      simp only [Perform_N_steps, hterm, Bool.false_eq_true, if_false, hT, hng]
      rw [Nat.cast_add_one, hv]
    · refine ⟨{ st with rng := s', current_trial_ := st.current_trial_ + 1, Q_buffer := Q.map (applyMatP st.transform_) }, ?_, rfl, rfl, rfl⟩
      simp only [Perform_N_steps, hterm, Bool.false_eq_true, if_false, hT, hng, if_true]
      rw [Nat.cast_add_one, hv]

/-- C5 witness: cap, locality and continuation at the degenerate state. -/
theorem SelectRandomTriangle_cap_and_trial_local_witness :
    (SelectRandomTriangle stB).2.2 ≤ kNumberOfDiameterTrials ∧
    TryOneBase envB stB = { stB with rng := 3000 } ∧
    ∃ st3, Perform_N_steps envB DummyTransformVisitor cloudZ (0 + 1) stB =
        Perform_N_steps envB DummyTransformVisitor cloudZ 0 st3 ∧
      st3.current_trial_ = stB.current_trial_ + 1 ∧
      st3.best_LCP_ = stB.best_LCP_ ∧ st3.transform_ = stB.transform_ :=
  ⟨SelectRandomTriangle_cap_and_trial_local.1 stB,
   SelectRandomTriangle_cap_and_trial_local.2.1 envB stB 3000 1000 selB,
   SelectRandomTriangle_cap_and_trial_local.2.2 envB DummyTransformVisitor cloudZ 0 stB
     3000 1000 terminatedB selB rfl⟩

/-- C6: `ComputeRigidTransformation` depends on the first three
correspondences only, always returns a flag-transform-residual triple, and a
failed fit merely leaves the candidate scan state unchanged — it never
aborts the run. -/
theorem ComputeRigidTransformation_first_three :
    (∀ (solver : RigidSolver) (ref ref' cand cand' : List Vec3) (c1 c2 : Vec3)
        (ang : ℚ) (sc : Bool),
        ref.take 3 = ref'.take 3 → cand.take 3 = cand'.take 3 →
        ComputeRigidTransformation solver ref cand c1 c2 ang sc =
          ComputeRigidTransformation solver ref' cand' c1 c2 ang sc) ∧
    (∀ (env : MatchEnv) (b : List Vec3) (st : MatchState) (cand : List ℕ),
        (ComputeRigidTransformation env.solver b (candCoords st cand) (centroid b)
            (centroid (candCoords st cand)) env.opts.max_angle false).1 = false →
        tryCandidate env b st cand = st) := by
  constructor
  · intro solver ref ref' cand cand' c1 c2 ang sc h1 h2
    unfold ComputeRigidTransformation
    rw [h1, h2]
  · intro env b st cand h
    have h' : ¬((ComputeRigidTransformation env.solver b (candCoords st cand)
        (centroid b) (centroid (candCoords st cand)) env.opts.max_angle false).1
          = true) := by
      rw [h]
      simp
    unfold tryCandidate
    dsimp only
    rw [if_neg h']

/-- C6 witness: invariance in the fourth correspondence and a failed fit at
a concrete candidate. -/
theorem ComputeRigidTransformation_first_three_witness :
    ComputeRigidTransformation solverNone [pA.pos, pB.pos, pC.pos, vD]
        [pA.pos, pB.pos, pC.pos, vD] pA.pos pA.pos 1 false =
      ComputeRigidTransformation solverNone [pA.pos, pB.pos, pC.pos, vE]
        [pA.pos, pB.pos, pC.pos, vE] pA.pos pA.pos 1 false ∧
    tryCandidate envW [] stW0 [] = stW0 :=
  ⟨ComputeRigidTransformation_first_three.1 solverNone _ _ _ _ pA.pos pA.pos 1 false
      rfl rfl,
   ComputeRigidTransformation_first_three.2 envW [] stW0 [] rfl⟩

/-- An under-sized sample (fewer than three points on either side) makes the
run fail immediately with `initializationFailure`, and the error return
short-circuits `ComputeTransformation` before the trial loop. -/
theorem init_undersized_fails (env : MatchEnv)
    (sampler : List Point3D → List Point3D) (v : VisitorT) (w : World) (seed : ℕ)
    (hcond : (sampler w.P).length < 3 ∨ (sampler w.Q).length < 3) :
    init env sampler w.P w.Q w.transformation seed =
      Except.error MatchError.initializationFailure ∧
    ComputeTransformation env sampler v w seed =
      Except.error MatchError.initializationFailure := by
  have hinit : init env sampler w.P w.Q w.transformation seed =
      Except.error MatchError.initializationFailure := by
    simp only [init]
    rw [if_pos hcond]
  refine ⟨hinit, ?_⟩
  unfold ComputeTransformation
  rw [hinit]

/-- C7: an empty reference or target buffer — or, for any inputs, a sample
that comes out under-sized (shorter than three points) — makes the run fail
immediately with `initializationFailure`; the error return short-circuits
`ComputeTransformation` before the trial loop. -/
theorem empty_input_initialization_failure :
    (∀ (env : MatchEnv) (sampler : List Point3D → List Point3D) (v : VisitorT)
      (w : World) (seed : ℕ),
      (∀ l, List.Sublist (sampler l) l) → (w.P = [] ∨ w.Q = []) →
      init env sampler w.P w.Q w.transformation seed =
        Except.error MatchError.initializationFailure ∧
      ComputeTransformation env sampler v w seed =
        Except.error MatchError.initializationFailure) ∧
    (∀ (env : MatchEnv) (sampler : List Point3D → List Point3D) (v : VisitorT)
      (w : World) (seed : ℕ),
      ((sampler w.P).length < 3 ∨ (sampler w.Q).length < 3) →
      init env sampler w.P w.Q w.transformation seed =
        Except.error MatchError.initializationFailure ∧
      ComputeTransformation env sampler v w seed =
        Except.error MatchError.initializationFailure) := by
  constructor
  · intro env sampler v w seed hs hpq
    have hnil : sampler [] = [] := List.sublist_nil.mp (hs [])
    have hcond : (sampler w.P).length < 3 ∨ (sampler w.Q).length < 3 := by
      rcases hpq with hp | hq
      · left
        rw [hp, hnil]
        norm_num
      · right
        rw [hq, hnil]
        norm_num
    exact init_undersized_fails env sampler v w seed hcond
  · intro env sampler v w seed hcond
    exact init_undersized_fails env sampler v w seed hcond

/-- C7 witness: the failure at a concrete empty reference buffer, and at a
concrete nonempty input whose sample is under-sized. -/
theorem empty_input_initialization_failure_witness :
    (init envW samplerW wE.P wE.Q wE.transformation 0 =
        Except.error MatchError.initializationFailure ∧
      ComputeTransformation envW samplerW DummyTransformVisitor wE 0 =
        Except.error MatchError.initializationFailure) ∧
    (init envW samplerShort wW.P wW.Q wW.transformation 0 =
        Except.error MatchError.initializationFailure ∧
      ComputeTransformation envW samplerShort DummyTransformVisitor wW 0 =
        Except.error MatchError.initializationFailure) :=
  ⟨empty_input_initialization_failure.1 envW samplerW DummyTransformVisitor wE 0
      (fun l => List.Sublist.refl l) (Or.inl rfl),
   empty_input_initialization_failure.2 envW samplerShort DummyTransformVisitor wW 0
      (Or.inl (by norm_num [samplerShort, wW, cloudW]))⟩


/-- C8: the maximum base diameter is the estimated diameter times the
estimated overlap times `distance_factor`, clamped to the set's extent
(stated on the squared quantities the engine carries), and every selected
base has all pairwise squared distances within it. -/
theorem max_base_diameter_formula_and_bounds :
    (∀ (env : MatchEnv) (sampler : List Point3D → List Point3D)
        (P Q : List Point3D) (g : Mat4) (seed : ℕ) (st : MatchState),
        init env sampler P Q g seed = Except.ok st →
        st.max_base_diameter_sq =
          qmin (st.P_diameter_sq *
              ((env.opts.overlap_estimation * distance_factor) *
                (env.opts.overlap_estimation * distance_factor)))
            st.P_diameter_sq) ∧
    (∀ (st : MatchState) (i j k s' a : ℕ),
        SelectRandomTriangle st = (some (i, j, k), s', a) →
        ∃ pa pb pc, st.sampled_P_3D_.get? i = some pa ∧
          st.sampled_P_3D_.get? j = some pb ∧ st.sampled_P_3D_.get? k = some pc ∧
          distSq pa.pos pb.pos ≤ st.max_base_diameter_sq ∧
          distSq pa.pos pc.pos ≤ st.max_base_diameter_sq ∧
          distSq pb.pos pc.pos ≤ st.max_base_diameter_sq) := by
  constructor
  · intro env sampler P Q g seed st h
    exact (init_ok_fields env sampler P Q g seed st h).2.2.2.2
  · intro st i j k s' a h
    exact goodTriangle_bounds st i j k
      (selectLoop_some_good st kNumberOfDiameterTrials st.rng i j k s' a h)

/-- C8 witness: the formula at the concrete run start, and the bound at a
concretely selected base. -/
theorem max_base_diameter_formula_and_bounds_witness :
    (stW0.max_base_diameter_sq =
      qmin (stW0.P_diameter_sq *
          ((envW.opts.overlap_estimation * distance_factor) *
            (envW.opts.overlap_estimation * distance_factor)))
        stW0.P_diameter_sq) ∧
    ∃ pa pb pc, stG.sampled_P_3D_.get? 0 = some pa ∧
      stG.sampled_P_3D_.get? 1 = some pb ∧ stG.sampled_P_3D_.get? 2 = some pc ∧
      distSq pa.pos pb.pos ≤ stG.max_base_diameter_sq ∧
      distSq pa.pos pc.pos ≤ stG.max_base_diameter_sq ∧
      distSq pb.pos pc.pos ≤ stG.max_base_diameter_sq :=
  ⟨max_base_diameter_formula_and_bounds.1 envW samplerW cloudW cloudW Mat4.one 0 stW0
      initW_eq,
   max_base_diameter_formula_and_bounds.2 stG 0 1 2 3 1 selG⟩

/-- C9: the default visitor is a guaranteed no-op — its call operator always
answers `proceed`, `needsGlobalTransformation` is false, and the trial loop
run with it coincides with the visitor-free loop and never touches the
caller's live buffer. -/
theorem DummyTransformVisitor_noop :
    DummyTransformVisitor.needsGlobalTransformation = false ∧
    (∀ (f l : ℚ) (t : Mat4),
      DummyTransformVisitor.onTrial f l t = VisitorAction.proceed) ∧
    (∀ (env : MatchEnv) (Q : List Point3D) (n : ℕ) (st : MatchState),
      Perform_N_steps env DummyTransformVisitor Q n st = Perform_N_steps_plain env n st) ∧
    (∀ (env : MatchEnv) (Q : List Point3D) (n : ℕ) (st : MatchState),
      (Perform_N_steps env DummyTransformVisitor Q n st).Q_buffer = st.Q_buffer) :=
  ⟨rfl, fun _ _ _ => rfl,
   fun env Q n st => Perform_N_steps_dummy_eq_plain env Q n st,
   fun env Q n st => by
     rw [Perform_N_steps_dummy_eq_plain env Q n st]
     exact Perform_N_steps_plain_Q_buffer env n st⟩

/-- C10: `ComputeTransformation` never modifies the reference buffer P: the
returned caller buffers carry P unchanged. -/
theorem ComputeTransformation_preserves_P :
    ∀ (env : MatchEnv) (sampler : List Point3D → List Point3D) (v : VisitorT)
      (w : World) (seed : ℕ) (lcp : ℚ) (w' : World),
      ComputeTransformation env sampler v w seed = Except.ok (lcp, w') →
      w'.P = w.P := by
  intro env sampler v w seed lcp w' h
  unfold ComputeTransformation at h
  cases hinit : init env sampler w.P w.Q w.transformation seed with
  | error e => rw [hinit] at h; exact absurd h (by simp)
  | ok st0 =>
      rw [hinit] at h
      simp only [Except.ok.injEq, Prod.mk.injEq] at h
      obtain ⟨-, h2⟩ := h
      subst h2
      rfl

/-- C10 witness: P is unchanged in the concrete run. -/
theorem ComputeTransformation_preserves_P_witness : wRes.P = wW.P :=
  ComputeTransformation_preserves_P envW samplerW DummyTransformVisitor wW 0 0 wRes
    ctW_eq

end gr
